import Mathlib

/-!
Shallow embedding of the peon-ping plugin core (src/peon-ping.ts).

JS `Record<string, T>` objects are modelled as insertion-ordered association
lists `List (String × T)`: `alookup` is property read, `aset` is property
assignment (replace in place if the key exists, append otherwise). JS numbers
are modelled as `Rat` (the code only performs exact arithmetic on them).
`Math.floor(Math.random() * n)`, which always yields an index in `[0, n)`, is
modelled by threading an explicit draw `r : Nat`; theorems that depend on the
draw being in range carry the hypothesis `r < n`. Fallible JS code (a `throw`)
is modelled with `Except String`.
-/

def alookup {α : Type} : List (String × α) → String → Option α
  | [], _ => none
  | (k, v) :: rest, key => if k = key then some v else alookup rest key

def aset {α : Type} : List (String × α) → String → α → List (String × α)
  | [], key, v => [(key, v)]
  | (k, w) :: rest, key, v =>
      if k = key then (key, v) :: rest else (k, w) :: aset rest key v

theorem alookup_aset_self {α : Type} (m : List (String × α)) (k : String) (v : α) :
    alookup (aset m k v) k = some v := by
  induction m with
  | nil => simp [aset, alookup]
  | cons hd tl ih =>
    obtain ⟨k0, w⟩ := hd
    by_cases h0 : k0 = k
    · simp [aset, alookup, h0]
    · simp [aset, alookup, h0, ih]

theorem alookup_aset_ne {α : Type} (m : List (String × α)) (k k' : String) (v : α)
    (h : k' ≠ k) : alookup (aset m k v) k' = alookup m k' := by
  induction m with
  | nil => simp [aset, alookup, Ne.symm h]
  | cons hd tl ih =>
    obtain ⟨k0, w⟩ := hd
    by_cases h0 : k0 = k
    · subst h0; simp [aset, alookup, Ne.symm h]
    · simp [aset, alookup, h0, ih]

/-- Interface `SoundEntry` (src/peon-ping.ts lines 6-9): `file` is the sound
file id, `line` the display quote. -/
structure SoundEntry where
  file : String
  line : String
deriving DecidableEq, Repr

/-- The value type of a manifest's `categories` record (line 14). -/
structure CategorySounds where
  sounds : List SoundEntry
deriving DecidableEq, Repr

/-- Interface `PackManifest` (lines 11-15). -/
structure PackManifest where
  name : String
  display_name : String
  categories : List (String × CategorySounds)
deriving DecidableEq, Repr

/-- Interface `PeonConfig` (lines 17-25). -/
structure PeonConfig where
  active_pack : String
  volume : Rat
  paused : Bool
  categories : List (String × Bool)
  annoyed_threshold : Nat
  annoyed_window_seconds : Rat
  pack_rotation : List String
deriving DecidableEq, Repr

/-- Interface `PeonState` (lines 27-31). -/
structure PeonState where
  last_played : List (String × String)
  prompt_timestamps : List (String × List Rat)
  session_packs : List (String × String)
deriving DecidableEq, Repr

/-- `DEFAULT_CONFIG` (lines 40-54). -/
def DEFAULT_CONFIG : PeonConfig where
  active_pack := "peon"
  volume := 0.5
  paused := false
  categories :=
    [("greeting", true), ("complete", true), ("error", true),
     ("permission", true), ("annoyed", true)]
  annoyed_threshold := 3
  annoyed_window_seconds := 10
  pack_rotation := []

/-- `pickSound` (lines 142-161). Returns `.ok (none, state)` where the JS
returns `null`, `.ok (some pick, state')` where it returns a sound entry after
mutating `state.last_played[category]`, and `.error _` where the JS throws:
when `candidates` is empty (every sound's file equals `last_played[category]`
and there are at least two sounds), `candidates[idx]` is `undefined` and
`pick.file` raises a TypeError. -/
def pickSound (manifest : PackManifest) (category : String) (state : PeonState)
    (r : Nat) : Except String (Option SoundEntry × PeonState) :=
  match alookup manifest.categories category with
  | none => .ok (none, state)
  | some cat =>
    if cat.sounds.isEmpty then .ok (none, state)
    else
      let sounds := cat.sounds
      let lastFile := (alookup state.last_played category).getD ""
      let candidates :=
        if sounds.length ≤ 1 then sounds
        else sounds.filter (fun s => s.file ≠ lastFile)
      match candidates[r]? with
      | none => .error "TypeError: cannot read properties of undefined"
      | some pick =>
          .ok (some pick,
               { state with last_played := aset state.last_played category pick.file })

/-- `resolveActivePack` (lines 163-179). The JS guard
`if (existing && rotation.includes(existing))` treats both a missing entry and
the empty string as falsy, so both are merged into `getD ""`. The random pick
`rotation[Math.floor(Math.random() * rotation.length)]` always indexes in
range in JS; the `getD ""` default on the draw `r` is unreachable under
`r < rotation.length`. -/
def resolveActivePack (config : PeonConfig) (state : PeonState)
    (sessionID : String) (r : Nat) : String × PeonState :=
  if config.pack_rotation.isEmpty then (config.active_pack, state)
  else
    let existing := (alookup state.session_packs sessionID).getD ""
    if existing ≠ "" ∧ existing ∈ config.pack_rotation then (existing, state)
    else
      let picked := config.pack_rotation.getD r ""
      (picked, { state with session_packs := aset state.session_packs sessionID picked })

/-- The `message.updated` branch of the event handler (lines 314-338): the
rapid-prompt bookkeeping. Filters the session's stored timestamps to those
with `now - t < annoyed_window_seconds`, appends `now`, stores the result back
(the JS then calls `saveState` unconditionally), and sets the category to
`"annoyed"` exactly when the resulting length reaches `annoyed_threshold` and
`config.categories.annoyed !== false`. Returns the saved state and the
category assignment (`none` models the JS `category` staying `null`). -/
def observeMessage (config : PeonConfig) (state : PeonState) (sessionID : String)
    (now : Rat) : PeonState × Option String :=
  let timestamps :=
    ((alookup state.prompt_timestamps sessionID).getD []).filter
      (fun t => now - t < config.annoyed_window_seconds) ++ [now]
  let state' :=
    { state with prompt_timestamps := aset state.prompt_timestamps sessionID timestamps }
  (state',
   if config.annoyed_threshold ≤ timestamps.length ∧
      alookup config.categories "annoyed" ≠ some false
   then some "annoyed" else none)

/-- The host events the handler's `switch` (lines 283-342) distinguishes.
`sessionError` carries an optional session id (`event.properties.sessionID` may
be absent); `messageUpdated` carries the message's role and session id;
`other` stands for every event type reaching the `default` arm. -/
inductive HostEvent where
  | sessionCreated (id : String)
  | sessionIdle (sessionID : String)
  | sessionError (sessionID : Option String)
  | permissionAsked (sessionID : String)
  | messageUpdated (role : String) (sessionID : String)
  | other
deriving DecidableEq, Repr

/-- Outcome of the `switch` statement (lines 283-342), before the rapid-prompt
bookkeeping runs: `ignore` models an early `return`, `cue` the assignment of
`category` / `notify` / `notifyMessage` / `sessionID`, and `userMessage` entry
into the `message.updated` branch for a user-posted message. -/
inductive ClassifyResult where
  | ignore
  | cue (category : String) (notify : Bool) (notifyMessage : String) (sessionID : String)
  | userMessage (sessionID : String)
deriving DecidableEq, Repr

/-- The pure classification performed by the `switch` (lines 283-342). -/
def classifyEvent : HostEvent → ClassifyResult
  | .sessionCreated id => .cue "greeting" false "" id
  | .sessionIdle sid => .cue "complete" true "Task complete" sid
  | .sessionError sid => .cue "error" true "Session error" (sid.getD "")
  | .permissionAsked sid => .cue "permission" true "Permission needed" sid
  | .messageUpdated role sid => if role = "user" then .userMessage sid else .ignore
  | .other => .ignore

/-- What one invocation of the event handler leaves behind: the content of the
state store after the call (`store` unchanged when no `saveState` ran), the
sound dispatched to `afplay` (if any), and whether a desktop notification was
requested. -/
structure HandlerOutcome where
  store : PeonState
  played : Option SoundEntry
  notified : Bool
deriving DecidableEq, Repr

/-- Lines 344-395 of the event handler: everything after the `switch`, given
the resolved `category`, `notify` flag and `sessionID`. `manifests` models
`loadManifest` (the read-only manifest provider), `soundExists` the
`existsSync` check on the sound path, `focused` the foreground-terminal query.
Note that when the manifest fails to load, the `session_packs` entry written by
`resolveActivePack` is discarded rather than saved (the JS returns before
`saveState`). -/
def afterClassify (config : PeonConfig) (store : PeonState)
    (manifests : String → Option PackManifest) (category : String)
    (notify : Bool) (sessionID : String) (rPack rSound : Nat)
    (soundExists : String → String → Bool) (focused : Bool) :
    Except String HandlerOutcome :=
  if alookup config.categories category = some false then .ok ⟨store, none, false⟩
  else
    let resolved := resolveActivePack config store sessionID rPack
    match manifests resolved.1 with
    | none => .ok ⟨store, none, false⟩
    | some manifest =>
      match pickSound manifest category resolved.2 rSound with
      | .error e => .error e
      | .ok (none, state') => .ok ⟨state', none, false⟩
      | .ok (some sound, state') =>
          if soundExists resolved.1 sound.file then
            .ok ⟨state', some sound, notify && !focused⟩
          else .ok ⟨state', none, false⟩

/-- The event handler (lines 273-396), with the state store threaded as a
value: `store` is what `loadState` returns (both at line 319 and, after the
message branch saved, at line 347), and the returned `HandlerOutcome.store` is
the store's content when the handler finishes. `config` is the record
`loadConfig` produced at line 274. -/
def handleEvent (config : PeonConfig) (store : PeonState)
    (manifests : String → Option PackManifest) (ev : HostEvent) (now : Rat)
    (rPack rSound : Nat) (soundExists : String → String → Bool)
    (focused : Bool) : Except String HandlerOutcome :=
  if config.paused then .ok ⟨store, none, false⟩
  else
    match classifyEvent ev with
    | .ignore => .ok ⟨store, none, false⟩
    | .userMessage sessionID =>
      let observed := observeMessage config store sessionID now
      match observed.2 with
      | some category =>
          afterClassify config observed.1 manifests category false sessionID
            rPack rSound soundExists focused
      | none => .ok ⟨observed.1, none, false⟩
    | .cue category notify _ sessionID =>
        afterClassify config store manifests category notify sessionID
          rPack rSound soundExists focused

/-- The shape of a parsed `config.json`: each field of `PeonConfig` may be
present or absent, mirroring the shallow spread `{ ...DEFAULT_CONFIG, ...raw }`
of `loadConfig` (line 84), which overrides exactly the fields the file
contains. -/
structure RawConfig where
  active_pack : Option String
  volume : Option Rat
  paused : Option Bool
  categories : Option (List (String × Bool))
  annoyed_threshold : Option Nat
  annoyed_window_seconds : Option Rat
  pack_rotation : Option (List String)
deriving DecidableEq, Repr

/-- The config file as `loadConfig` can observe it: absent, present but
failing `JSON.parse` (or otherwise unusable), or parsed to a `RawConfig`. -/
inductive ConfigFile where
  | missing
  | corrupt
  | stored (raw : RawConfig)
deriving DecidableEq, Repr

/-- `JSON.stringify` of a full config record: every field present. -/
def rawOfConfig (c : PeonConfig) : RawConfig where
  active_pack := some c.active_pack
  volume := some c.volume
  paused := some c.paused
  categories := some c.categories
  annoyed_threshold := some c.annoyed_threshold
  annoyed_window_seconds := some c.annoyed_window_seconds
  pack_rotation := some c.pack_rotation

/-- The spread `{ ...DEFAULT_CONFIG, ...raw }` (line 84): fields present in
the file override the default, absent fields keep it. -/
def mergeConfig (raw : RawConfig) : PeonConfig where
  active_pack := raw.active_pack.getD DEFAULT_CONFIG.active_pack
  volume := raw.volume.getD DEFAULT_CONFIG.volume
  paused := raw.paused.getD DEFAULT_CONFIG.paused
  categories := raw.categories.getD DEFAULT_CONFIG.categories
  annoyed_threshold := raw.annoyed_threshold.getD DEFAULT_CONFIG.annoyed_threshold
  annoyed_window_seconds :=
    raw.annoyed_window_seconds.getD DEFAULT_CONFIG.annoyed_window_seconds
  pack_rotation := raw.pack_rotation.getD DEFAULT_CONFIG.pack_rotation

/-- `loadConfig` (lines 76-88), returning the loaded record together with the
config file's content afterwards: on a missing file it writes the full default
record back (line 79) and returns the defaults; on a parse failure it returns
the defaults without writing; otherwise it shallow-merges the parsed fields
over the defaults. -/
def loadConfig : ConfigFile → PeonConfig × ConfigFile
  | .missing => (DEFAULT_CONFIG, .stored (rawOfConfig DEFAULT_CONFIG))
  | .corrupt => (DEFAULT_CONFIG, .corrupt)
  | .stored raw => (mergeConfig raw, .stored raw)

/-- The shape of a parsed `state.json`: each top-level key may be present or
absent/null (the JS reads them with `?? {}`, line 97-99). -/
structure RawState where
  last_played : Option (List (String × String))
  prompt_timestamps : Option (List (String × List Rat))
  session_packs : Option (List (String × String))
deriving DecidableEq, Repr

/-- The state file as `loadState` can observe it. -/
inductive StateFile where
  | missing
  | corrupt
  | stored (raw : RawState)
deriving DecidableEq, Repr

/-- The structural default state: three empty mappings (lines 92 and 102). -/
def emptyState : PeonState where
  last_played := []
  prompt_timestamps := []
  session_packs := []

/-- `loadState` (lines 90-104), returning the loaded record together with the
state file's content afterwards: a missing file yields the empty mappings with
no write-back, a parse failure likewise, and a parsed file falls back to an
empty mapping for each absent top-level key. -/
def loadState : StateFile → PeonState × StateFile
  | .missing => (emptyState, .missing)
  | .corrupt => (emptyState, .corrupt)
  | .stored raw =>
      (⟨raw.last_played.getD [], raw.prompt_timestamps.getD [],
        raw.session_packs.getD []⟩, .stored raw)

/-! Concrete fixtures used by witnesses and counterexamples. -/

/-- A manifest whose `complete` category holds the two sounds `a.mp3`,
`b.mp3`. -/
def packAB : PackManifest where
  name := "p"
  display_name := "Pack P"
  categories := [("complete", ⟨[⟨"a.mp3", "Ready"⟩, ⟨"b.mp3", "Work"⟩]⟩)]

/-- A manifest whose `complete` category holds two sounds with the same file
id `a.mp3`. -/
def packDup : PackManifest where
  name := "p"
  display_name := "Pack P"
  categories := [("complete", ⟨[⟨"a.mp3", "Ready"⟩, ⟨"a.mp3", "Work"⟩]⟩)]

/-- Unpacking a successful, sound-returning run of `pickSound`: the category
exists, the returned entry sits at index `r` of the candidate list computed
from the pre-state, and the post-state records its file id. -/
theorem pickSound_ok_elim {manifest : PackManifest} {category : String}
    {state : PeonState} {r : Nat} {p : SoundEntry} {s' : PeonState}
    (h : pickSound manifest category state r = .ok (some p, s')) :
    ∃ cat, alookup manifest.categories category = some cat ∧
      (if cat.sounds.length ≤ 1 then cat.sounds
       else cat.sounds.filter
         (fun s => s.file ≠ (alookup state.last_played category).getD ""))[r]? =
        some p ∧
      s' = { state with last_played := aset state.last_played category p.file } := by
  unfold pickSound at h
  split at h
  · simp at h
  next cat hcat =>
    split at h
    · simp at h
    · simp only [] at h
      split at h
      · simp at h
      next pick hpick =>
        simp only [Except.ok.injEq, Prod.mk.injEq, Option.some.injEq] at h
        exact ⟨cat, hcat, by rw [← h.1]; exact hpick, by rw [← h.1, ← h.2]⟩

/-- C1: for any manifest category with at least two sounds and any state, two
consecutive successful `pickSound` calls for that category (the second run
from the state produced by the first) return different sound file ids; and in
the concrete scenario with exactly the two sounds `a.mp3`, `b.mp3` and
`last_played.complete` unset, the first call (either possible draw) returns
one of the two and records its file id in `last_played.complete`, after which
the second call returns the other sound (its candidate list is the singleton
holding the other sound, so draw 0 is the only in-range draw). -/
theorem pickSound_nonrepetition :
    (∀ (manifest : PackManifest) (category : String) (state : PeonState)
       (cat : CategorySounds) (r1 r2 : Nat) (p1 p2 : SoundEntry)
       (s1 s2 : PeonState),
       alookup manifest.categories category = some cat →
       2 ≤ cat.sounds.length →
       pickSound manifest category state r1 = .ok (some p1, s1) →
       pickSound manifest category s1 r2 = .ok (some p2, s2) →
       p2.file ≠ p1.file)
    ∧ pickSound packAB "complete" emptyState 0 =
        .ok (some ⟨"a.mp3", "Ready"⟩, ⟨[("complete", "a.mp3")], [], []⟩)
    ∧ pickSound packAB "complete" ⟨[("complete", "a.mp3")], [], []⟩ 0 =
        .ok (some ⟨"b.mp3", "Work"⟩, ⟨[("complete", "b.mp3")], [], []⟩)
    ∧ pickSound packAB "complete" emptyState 1 =
        .ok (some ⟨"b.mp3", "Work"⟩, ⟨[("complete", "b.mp3")], [], []⟩)
    ∧ pickSound packAB "complete" ⟨[("complete", "b.mp3")], [], []⟩ 0 =
        .ok (some ⟨"a.mp3", "Ready"⟩, ⟨[("complete", "a.mp3")], [], []⟩) := by
  refine ⟨?_, rfl, rfl, rfl, rfl⟩
  intro manifest category state cat r1 r2 p1 p2 s1 s2 hcat hlen hp1 hp2
  obtain ⟨cat1, hc1, hidx1, hs1⟩ := pickSound_ok_elim hp1
  obtain ⟨cat2, hc2, hidx2, hs2⟩ := pickSound_ok_elim hp2
  rw [hcat] at hc1 hc2
  injection hc1 with h1
  injection hc2 with h2
  subst h1
  subst h2
  have hlen' : ¬ cat.sounds.length ≤ 1 := by omega
  subst hs1
  simp only [if_neg hlen', alookup_aset_self, Option.getD_some] at hidx2
  have hmem := List.getElem?_mem hidx2
  rw [List.mem_filter] at hmem
  simpa using hmem.2

/-- C1 witness: the general non-repetition statement instantiated on the
two-sound fixture, discharging every hypothesis concretely. -/
theorem pickSound_nonrepetition_witness :
    alookup packAB.categories "complete" =
      some ⟨[⟨"a.mp3", "Ready"⟩, ⟨"b.mp3", "Work"⟩]⟩ ∧
    2 ≤ (CategorySounds.mk [⟨"a.mp3", "Ready"⟩, ⟨"b.mp3", "Work"⟩]).sounds.length ∧
    ("b.mp3" : String) ≠ "a.mp3" :=
  ⟨rfl, by decide,
   pickSound_nonrepetition.1 packAB "complete" emptyState
     ⟨[⟨"a.mp3", "Ready"⟩, ⟨"b.mp3", "Work"⟩]⟩ 0 0
     ⟨"a.mp3", "Ready"⟩ ⟨"b.mp3", "Work"⟩
     ⟨[("complete", "a.mp3")], [], []⟩ ⟨[("complete", "b.mp3")], [], []⟩
     rfl (by decide) rfl rfl⟩

/-- C3 (evaluation at the failing input): with two sounds sharing the file id
`a.mp3` and `last_played.complete = "a.mp3"`, the candidate list filters to
empty, `candidates[0]` is `undefined`, and the JS `pick.file` access at line
159 throws a TypeError; the embedded `pickSound` reaches the `.error` arm
instead of returning `some` entry for this ≥2-sound category. -/
theorem pickSound_throws_on_exhausted_candidates :
    pickSound packDup "complete" ⟨[("complete", "a.mp3")], [], []⟩ 0 =
      .error "TypeError: cannot read properties of undefined" := rfl

/-- Config with the rotation `["a", "b"]` of the spec's sticky-rotation
scenario. -/
def cfgRot2 : PeonConfig := { DEFAULT_CONFIG with pack_rotation := ["a", "b"] }

/-- Config whose rotation contains the empty string as a pack name. -/
def cfgRotEmptyName : PeonConfig := { DEFAULT_CONFIG with pack_rotation := ["", "a"] }

/-- After `resolveActivePack` under a non-empty rotation and an in-range draw,
the returned pack is a rotation member and is recorded for the session. -/
theorem resolveActivePack_post (config : PeonConfig) (state : PeonState)
    (sessionID : String) (r : Nat) (hrot : config.pack_rotation ≠ [])
    (hr : r < config.pack_rotation.length) :
    (resolveActivePack config state sessionID r).1 ∈ config.pack_rotation ∧
    alookup (resolveActivePack config state sessionID r).2.session_packs sessionID =
      some (resolveActivePack config state sessionID r).1 := by
  unfold resolveActivePack
  rw [if_neg (by simp [List.isEmpty_iff, hrot])]
  by_cases hst : (alookup state.session_packs sessionID).getD "" ≠ "" ∧
      (alookup state.session_packs sessionID).getD "" ∈ config.pack_rotation
  · rw [if_pos hst]
    refine ⟨hst.2, ?_⟩
    rcases hlook : alookup state.session_packs sessionID with _ | p
    · exact absurd (by simp [hlook]) hst.1
    · simp [hlook]
  · rw [if_neg hst]
    constructor
    · simp only []
      rw [List.getD_eq_getElem?_getD, List.getElem?_eq_getElem hr]
      exact List.getElem_mem hr
    · exact alookup_aset_self _ _ _

/-- C4 counterexample: with `pack_rotation = ["", "a"]`, the session's sticky
entry `""` is a rotation member, yet a subsequent resolver call (draw 1) does
not return it: the JS guard `if (existing && rotation.includes(existing))`
treats the stored empty string as falsy and re-picks, here returning `"a"` and
overwriting the entry. -/
theorem resolveActivePack_sticky_cex :
    "" ∈ cfgRotEmptyName.pack_rotation ∧
    (1 : Nat) < cfgRotEmptyName.pack_rotation.length ∧
    alookup (PeonState.mk [] [] [("s", "")]).session_packs "s" = some "" ∧
    resolveActivePack cfgRotEmptyName ⟨[], [], [("s", "")]⟩ "s" 1 =
      ("a", ⟨[], [], [("s", "a")]⟩) ∧
    (resolveActivePack cfgRotEmptyName ⟨[], [], [("s", "")]⟩ "s" 1).1 ≠ "" := by
  refine ⟨by decide, by decide, rfl, rfl, by decide⟩

/-- C4 (amended): once `session_packs[s]` holds a NONEMPTY pack name that is
still a rotation member, every later `resolveActivePack` call for `s` (any
draw) returns that name and leaves the whole state unchanged; and under
`pack_rotation = ["a", "b"]` two resolver calls in a row for the same session
id (any in-range first draw) return the same pack. The nonemptiness proviso is
forced by the JS truthiness guard exhibited in the counterexample. -/
theorem resolveActivePack_sticky :
    (∀ (config : PeonConfig) (state : PeonState) (sessionID p : String) (r : Nat),
       config.pack_rotation ≠ [] →
       alookup state.session_packs sessionID = some p →
       p ≠ "" → p ∈ config.pack_rotation →
       resolveActivePack config state sessionID r = (p, state))
    ∧ (∀ (state : PeonState) (sessionID : String) (r1 r2 : Nat), r1 < 2 →
       (resolveActivePack cfgRot2
          (resolveActivePack cfgRot2 state sessionID r1).2 sessionID r2).1 =
         (resolveActivePack cfgRot2 state sessionID r1).1) := by
  have sticky : ∀ (config : PeonConfig) (state : PeonState) (sessionID p : String)
      (r : Nat), config.pack_rotation ≠ [] →
      alookup state.session_packs sessionID = some p →
      p ≠ "" → p ∈ config.pack_rotation →
      resolveActivePack config state sessionID r = (p, state) := by
    intro config state sessionID p r hrot hlook hne hmem
    unfold resolveActivePack
    rw [if_neg (by simp [List.isEmpty_iff, hrot])]
    simp only [hlook, Option.getD_some]
    rw [if_pos ⟨hne, hmem⟩]
  refine ⟨sticky, ?_⟩
  intro state sessionID r1 r2 hr1
  have hrotne : cfgRot2.pack_rotation ≠ [] := by decide
  have hr1' : r1 < cfgRot2.pack_rotation.length := by
    simpa [cfgRot2] using hr1
  obtain ⟨hmem, hlook⟩ := resolveActivePack_post cfgRot2 state sessionID r1 hrotne hr1'
  have hne : (resolveActivePack cfgRot2 state sessionID r1).1 ≠ "" := by
    intro h
    rw [h] at hmem
    revert hmem
    decide
  rw [sticky cfgRot2 (resolveActivePack cfgRot2 state sessionID r1).2 sessionID
        (resolveActivePack cfgRot2 state sessionID r1).1 r2 hrotne hlook hne hmem]

/-- C4 witness: the amended sticky statement instantiated with the session
entry `"a"` under rotation `["a", "b"]`, all hypotheses discharged
concretely. -/
theorem resolveActivePack_sticky_witness :
    cfgRot2.pack_rotation ≠ [] ∧
    alookup (PeonState.mk [] [] [("s", "a")]).session_packs "s" = some "a" ∧
    ("a" : String) ≠ "" ∧ "a" ∈ cfgRot2.pack_rotation ∧
    resolveActivePack cfgRot2 ⟨[], [], [("s", "a")]⟩ "s" 1 =
      ("a", ⟨[], [], [("s", "a")]⟩) :=
  ⟨by decide, rfl, by decide, by decide,
   resolveActivePack_sticky.1 cfgRot2 ⟨[], [], [("s", "a")]⟩ "s" "a" 1
     (by decide) rfl (by decide) (by decide)⟩

/-- C5: with an empty `pack_rotation`, `resolveActivePack` returns
`active_pack` and leaves the state untouched, whatever `session_packs` holds
for the session; with a non-empty rotation and an in-range draw, the returned
pack is always a rotation member (so it can only equal `active_pack` when
`active_pack` is itself the chosen rotation member). -/
theorem resolveActivePack_rotation :
    (∀ (config : PeonConfig) (state : PeonState) (sessionID : String) (r : Nat),
       config.pack_rotation = [] →
       resolveActivePack config state sessionID r = (config.active_pack, state))
    ∧ (∀ (config : PeonConfig) (state : PeonState) (sessionID : String) (r : Nat),
       config.pack_rotation ≠ [] → r < config.pack_rotation.length →
       (resolveActivePack config state sessionID r).1 ∈ config.pack_rotation) := by
  constructor
  · intro config state sessionID r h
    simp [resolveActivePack, h]
  · intro config state sessionID r hrot hr
    exact (resolveActivePack_post config state sessionID r hrot hr).1

/-- C5 witness: both parts instantiated — an empty rotation with a stale
sticky entry still yields `active_pack`, and under rotation `["a", "b"]` the
draw-0 result is a rotation member. -/
theorem resolveActivePack_rotation_witness :
    DEFAULT_CONFIG.pack_rotation = [] ∧
    resolveActivePack DEFAULT_CONFIG ⟨[], [], [("s", "stale")]⟩ "s" 0 =
      (DEFAULT_CONFIG.active_pack, ⟨[], [], [("s", "stale")]⟩) ∧
    cfgRot2.pack_rotation ≠ [] ∧ (0 : Nat) < cfgRot2.pack_rotation.length ∧
    (resolveActivePack cfgRot2 emptyState "s" 0).1 ∈ cfgRot2.pack_rotation :=
  ⟨rfl, resolveActivePack_rotation.1 DEFAULT_CONFIG ⟨[], [], [("s", "stale")]⟩ "s" 0 rfl,
   by decide, by decide,
   resolveActivePack_rotation.2 cfgRot2 emptyState "s" 0 (by decide) (by decide)⟩

/-- C9: `resolveActivePack` touches at most the queried session's
`session_packs` entry — with an empty rotation the returned state is the input
state itself (stale entries kept), and in general `last_played`,
`prompt_timestamps`, and every other session's `session_packs` entry are
unchanged. -/
theorem resolveActivePack_frame :
    (∀ (config : PeonConfig) (state : PeonState) (sessionID : String) (r : Nat),
       config.pack_rotation = [] →
       (resolveActivePack config state sessionID r).2 = state)
    ∧ (∀ (config : PeonConfig) (state : PeonState) (sessionID : String) (r : Nat),
       (resolveActivePack config state sessionID r).2.last_played = state.last_played ∧
       (resolveActivePack config state sessionID r).2.prompt_timestamps =
         state.prompt_timestamps ∧
       ∀ k, k ≠ sessionID →
         alookup (resolveActivePack config state sessionID r).2.session_packs k =
           alookup state.session_packs k) := by
  constructor
  · intro config state sessionID r h
    simp [resolveActivePack, h]
  · intro config state sessionID r
    unfold resolveActivePack
    split
    · exact ⟨rfl, rfl, fun k _ => rfl⟩
    · simp only []
      split
      · exact ⟨rfl, rfl, fun k _ => rfl⟩
      · exact ⟨rfl, rfl, fun k hk => alookup_aset_ne _ _ _ _ hk⟩

/-- C9 witness: both parts instantiated — empty rotation leaves a stale entry
in place; under rotation `["a", "b"]` the entry of another session `"t"` is
unchanged by a resolve for session `"s"`. -/
theorem resolveActivePack_frame_witness :
    DEFAULT_CONFIG.pack_rotation = [] ∧
    (resolveActivePack DEFAULT_CONFIG ⟨[], [], [("s", "stale")]⟩ "s" 0).2 =
      ⟨[], [], [("s", "stale")]⟩ ∧
    ("t" : String) ≠ "s" ∧
    alookup (resolveActivePack cfgRot2 ⟨[], [], [("t", "b")]⟩ "s" 0).2.session_packs "t" =
      alookup (PeonState.mk [] [] [("t", "b")]).session_packs "t" :=
  ⟨rfl,
   resolveActivePack_frame.1 DEFAULT_CONFIG ⟨[], [], [("s", "stale")]⟩ "s" 0 rfl,
   by decide,
   (resolveActivePack_frame.2 cfgRot2 ⟨[], [], [("t", "b")]⟩ "s" 0).2.2 "t" (by decide)⟩

/-- Config with the `annoyed` category explicitly disabled. -/
def cfgAnnoyedOff : PeonConfig := { DEFAULT_CONFIG with categories := [("annoyed", false)] }

/-- C2 counterexample: with `categories.annoyed = false` and threshold 3, a
third rapid observation persists the length-3 sequence `[0, 1, 2]` (so the
resulting length reaches the threshold) yet the event is NOT classified as
annoyed — the code additionally requires `config.categories.annoyed !== false`
(line 333), which the claim's "exactly when" omits. -/
theorem observeMessage_disabled_cex :
    cfgAnnoyedOff.annoyed_threshold ≤ ([(0 : Rat), 1, 2]).length ∧
    observeMessage cfgAnnoyedOff ⟨[], [("s", [0, 1])], []⟩ "s" 2 =
      (⟨[], [("s", [0, 1, 2])], []⟩, none) := by
  refine ⟨by decide, ?_⟩
  unfold observeMessage
  norm_num [alookup, aset, cfgAnnoyedOff, DEFAULT_CONFIG, List.filter]

/-- C2 (amended): the rapid-prompt observation drops every stored timestamp
`t` with `now - t ≥ annoyed_window_seconds`, appends `now`, and persists the
result for the session unconditionally (for every config — in particular when
no cue fires and when `annoyed` is disabled — and touching no other state
field); it classifies the event as annoyed exactly when the resulting length
(old survivors plus the appended `now`) reaches `annoyed_threshold` AND the
`annoyed` category is not explicitly disabled. Concretely, with window 10 and
threshold 3, observations at t = 0, 1, 2 trigger on the third, and a following
observation at t = 13 persists `[13]` and does not trigger. -/
theorem observeMessage_sliding_window :
    (∀ (config : PeonConfig) (state : PeonState) (sessionID : String) (now : Rat),
       alookup (observeMessage config state sessionID now).1.prompt_timestamps sessionID =
         some (((alookup state.prompt_timestamps sessionID).getD []).filter
                 (fun t => now - t < config.annoyed_window_seconds) ++ [now]) ∧
       (observeMessage config state sessionID now).1.last_played = state.last_played ∧
       (observeMessage config state sessionID now).1.session_packs = state.session_packs)
    ∧ (∀ (config : PeonConfig) (state : PeonState) (sessionID : String) (now : Rat),
       (observeMessage config state sessionID now).2 = some "annoyed" ↔
         config.annoyed_threshold ≤
           (((alookup state.prompt_timestamps sessionID).getD []).filter
              (fun t => now - t < config.annoyed_window_seconds)).length + 1 ∧
         alookup config.categories "annoyed" ≠ some false)
    ∧ observeMessage DEFAULT_CONFIG emptyState "s" 0 = (⟨[], [("s", [0])], []⟩, none)
    ∧ observeMessage DEFAULT_CONFIG ⟨[], [("s", [0])], []⟩ "s" 1 =
        (⟨[], [("s", [0, 1])], []⟩, none)
    ∧ observeMessage DEFAULT_CONFIG ⟨[], [("s", [0, 1])], []⟩ "s" 2 =
        (⟨[], [("s", [0, 1, 2])], []⟩, some "annoyed")
    ∧ observeMessage DEFAULT_CONFIG ⟨[], [("s", [0, 1, 2])], []⟩ "s" 13 =
        (⟨[], [("s", [13])], []⟩, none) := by
  refine ⟨?_, ?_, ?_, ?_, ?_, ?_⟩
  · intro config state sessionID now
    exact ⟨alookup_aset_self _ _ _, rfl, rfl⟩
  · intro config state sessionID now
    unfold observeMessage
    simp only [List.length_append, List.length_singleton]
    split
    next hcond => simp only [Option.some.injEq]; simpa using hcond
    next hcond => simpa using hcond
  · unfold observeMessage
    norm_num [alookup, aset, DEFAULT_CONFIG, emptyState, List.filter]
  · unfold observeMessage
    norm_num [alookup, aset, DEFAULT_CONFIG, List.filter]
  · unfold observeMessage
    norm_num [alookup, aset, DEFAULT_CONFIG, List.filter]
  · unfold observeMessage
    norm_num [alookup, aset, DEFAULT_CONFIG, List.filter]

/-- Config with the `error` category explicitly disabled. -/
def cfgErrorOff : PeonConfig := { DEFAULT_CONFIG with categories := [("error", false)] }

/-- C6: when `config.paused` is true the handler returns immediately — the
store content, dispatched sound, and notification request are exactly those of
a no-op — and likewise whenever the switch resolves a cue category that is
explicitly disabled (`categories[category] === false`); in particular a
session-error event under `categories.error = false` yields no cue and no
state mutation. (For message events a disabled `annoyed` never becomes the
resolved category, so every resolved-and-disabled case is covered.) -/
theorem handleEvent_short_circuit :
    (∀ (config : PeonConfig) (store : PeonState)
       (manifests : String → Option PackManifest) (ev : HostEvent) (now : Rat)
       (rPack rSound : Nat) (soundExists : String → String → Bool) (focused : Bool),
       config.paused = true →
       handleEvent config store manifests ev now rPack rSound soundExists focused =
         .ok ⟨store, none, false⟩)
    ∧ (∀ (config : PeonConfig) (store : PeonState)
       (manifests : String → Option PackManifest) (ev : HostEvent) (now : Rat)
       (rPack rSound : Nat) (soundExists : String → String → Bool) (focused : Bool)
       (c : String) (n : Bool) (m sid : String),
       classifyEvent ev = .cue c n m sid →
       alookup config.categories c = some false →
       handleEvent config store manifests ev now rPack rSound soundExists focused =
         .ok ⟨store, none, false⟩)
    ∧ handleEvent cfgErrorOff emptyState (fun _ => none) (.sessionError (some "s")) 0 0 0
        (fun _ _ => false) false = .ok ⟨emptyState, none, false⟩ := by
  refine ⟨?_, ?_, rfl⟩
  · intro config store manifests ev now rPack rSound soundExists focused h
    simp [handleEvent, h]
  · intro config store manifests ev now rPack rSound soundExists focused c n m sid hcl hdis
    cases hp : config.paused
    · simp [handleEvent, hp, hcl, afterClassify, hdis]
    · simp [handleEvent, hp]

/-- C6 witness: both short-circuits instantiated — a paused config on an idle
event, and a disabled `complete` category resolved from an idle event. -/
theorem handleEvent_short_circuit_witness :
    (PeonConfig.mk "peon" 1 true [] 3 10 []).paused = true ∧
    handleEvent ⟨"peon", 1, true, [], 3, 10, []⟩ emptyState (fun _ => none)
      (.sessionIdle "s") 0 0 0 (fun _ _ => false) false = .ok ⟨emptyState, none, false⟩ ∧
    classifyEvent (.sessionIdle "s") = .cue "complete" true "Task complete" "s" ∧
    alookup (PeonConfig.mk "peon" 1 false [("complete", false)] 3 10 []).categories
      "complete" = some false ∧
    handleEvent ⟨"peon", 1, false, [("complete", false)], 3, 10, []⟩ emptyState
      (fun _ => none) (.sessionIdle "s") 0 0 0 (fun _ _ => false) false =
      .ok ⟨emptyState, none, false⟩ :=
  ⟨rfl,
   handleEvent_short_circuit.1 ⟨"peon", 1, true, [], 3, 10, []⟩ emptyState
     (fun _ => none) (.sessionIdle "s") 0 0 0 (fun _ _ => false) false rfl,
   rfl, rfl,
   handleEvent_short_circuit.2.1 ⟨"peon", 1, false, [("complete", false)], 3, 10, []⟩
     emptyState (fun _ => none) (.sessionIdle "s") 0 0 0 (fun _ _ => false) false
     "complete" true "Task complete" "s" rfl rfl⟩

/-- C8: the switch classifies host events exactly as the spec's table states —
session created ↦ greeting without notification carrying the new session's id;
session idle ↦ complete with notification; permission asked ↦ permission with
notification; session error ↦ error with notification, the session id
defaulting to the empty string when absent; every other event kind, and every
message event whose role is not `user`, is ignored. -/
theorem classifyEvent_mapping :
    (∀ id, classifyEvent (.sessionCreated id) = .cue "greeting" false "" id)
    ∧ (∀ sid, classifyEvent (.sessionIdle sid) = .cue "complete" true "Task complete" sid)
    ∧ (∀ sid, classifyEvent (.permissionAsked sid) =
        .cue "permission" true "Permission needed" sid)
    ∧ (∀ sid, classifyEvent (.sessionError (some sid)) =
        .cue "error" true "Session error" sid)
    ∧ classifyEvent (.sessionError none) = .cue "error" true "Session error" ""
    ∧ (∀ role sid, role ≠ "user" → classifyEvent (.messageUpdated role sid) = .ignore)
    ∧ classifyEvent .other = .ignore := by
  refine ⟨fun _ => rfl, fun _ => rfl, fun _ => rfl, fun _ => rfl, rfl, ?_, rfl⟩
  intro role sid h
  simp [classifyEvent, h]

/-- C8 witness: the non-user-message arm instantiated at role `assistant`. -/
theorem classifyEvent_mapping_witness :
    ("assistant" : String) ≠ "user" ∧
    classifyEvent (.messageUpdated "assistant" "s") = .ignore :=
  ⟨by decide, classifyEvent_mapping.2.2.2.2.2.1 "assistant" "s" (by decide)⟩

/-- C7: `loadConfig` returns the exact default record on a missing or
unparseable file; on a parsed file each field falls back to its default
exactly when the file omits it (shallow merge, field by field); `loadState`
yields the three empty mappings on a missing or unparseable file and an empty
mapping for each absent top-level key; and after the defaults are written back
by a load on a missing file, loading again returns the identical record and
leaves the file unchanged (idempotent). -/
theorem load_self_healing :
    (loadConfig .missing).1 = DEFAULT_CONFIG ∧
    (loadConfig .corrupt).1 = DEFAULT_CONFIG ∧
    (∀ raw : RawConfig,
       (loadConfig (.stored raw)).1.active_pack =
         raw.active_pack.getD DEFAULT_CONFIG.active_pack ∧
       (loadConfig (.stored raw)).1.volume = raw.volume.getD DEFAULT_CONFIG.volume ∧
       (loadConfig (.stored raw)).1.paused = raw.paused.getD DEFAULT_CONFIG.paused ∧
       (loadConfig (.stored raw)).1.categories =
         raw.categories.getD DEFAULT_CONFIG.categories ∧
       (loadConfig (.stored raw)).1.annoyed_threshold =
         raw.annoyed_threshold.getD DEFAULT_CONFIG.annoyed_threshold ∧
       (loadConfig (.stored raw)).1.annoyed_window_seconds =
         raw.annoyed_window_seconds.getD DEFAULT_CONFIG.annoyed_window_seconds ∧
       (loadConfig (.stored raw)).1.pack_rotation =
         raw.pack_rotation.getD DEFAULT_CONFIG.pack_rotation) ∧
    (loadState .missing).1 = emptyState ∧
    (loadState .corrupt).1 = emptyState ∧
    (∀ raw : RawState,
       (raw.last_played = none → (loadState (.stored raw)).1.last_played = []) ∧
       (raw.prompt_timestamps = none →
         (loadState (.stored raw)).1.prompt_timestamps = []) ∧
       (raw.session_packs = none → (loadState (.stored raw)).1.session_packs = [])) ∧
    loadConfig (loadConfig .missing).2 = loadConfig .missing := by
  refine ⟨rfl, rfl, ?_, rfl, rfl, ?_, rfl⟩
  · intro raw
    exact ⟨rfl, rfl, rfl, rfl, rfl, rfl, rfl⟩
  · intro raw
    refine ⟨fun h => ?_, fun h => ?_, fun h => ?_⟩ <;> simp [loadState, h]

/-- C7 witness: the per-field fallback and absent-key parts instantiated at a
file that stores only `paused` and a state file with no top-level keys. -/
theorem load_self_healing_witness :
    (RawConfig.mk none none (some true) none none none none).active_pack = none ∧
    (loadConfig (.stored ⟨none, none, some true, none, none, none, none⟩)).1.active_pack =
      (Option.none).getD DEFAULT_CONFIG.active_pack ∧
    (RawState.mk none none none).last_played = none ∧
    (loadState (.stored ⟨none, none, none⟩)).1.last_played = [] :=
  ⟨rfl,
   (load_self_healing.2.2.1 ⟨none, none, some true, none, none, none, none⟩).1,
   rfl,
   (load_self_healing.2.2.2.2.2.1 ⟨none, none, none⟩).1 rfl⟩

/-- C10: a load on a missing config file writes the full default record back
to the config file before returning the defaults, while a load on a missing
state file returns the empty mappings and leaves the file absent. -/
theorem loadConfig_writes_defaults :
    loadConfig .missing = (DEFAULT_CONFIG, .stored (rawOfConfig DEFAULT_CONFIG)) ∧
    loadState .missing = (emptyState, .missing) := ⟨rfl, rfl⟩
